import Mathlib

/-!
# HLW8012Sensor and MQ135Sensor: a shallow embedding

Sources embedded here:

* `code/espurna/sensors/HLW8012Sensor.h`: the sensor facade (pin setters, ratio
  setters and getters, `type`, `value`), the interrupt registry
  (`_hlw8012_sensor_instance`, `_hlw8012_sensor_isr`, `_hlw8012_sensor_isr_list`,
  `_attach`, `_detach`) and `_enableInterrupts`.
* `code/espurna/sensors/MQ135Sensor.h`: `setSamples` and `_rawRead`.

Conventions.  `unsigned char` pins and indices are natural numbers.  A `double`
is an element of an arbitrary type `R`; only the operations the code applies to it
are required of `R`.  An object is identified by its address (`addr`), the value
of `this`.  Code that may index an array out of bounds returns `Option`, and
`none` stands for that undefined behaviour.
-/

namespace Espurna

/-! ## Constants declared outside the two source files -/

/-- Modelled from the spec: the error codes `SENSOR_ERROR_OK` and
`SENSOR_ERROR_OUT_OF_RANGE` are declared outside the source files at hand ("error
code (OK vs OUT_OF_RANGE)"); only the two names used by `type` and `value` are
listed. -/
inductive SensorError where
  | SENSOR_ERROR_OK
  | SENSOR_ERROR_OUT_OF_RANGE
  deriving DecidableEq, Repr

/-- Modelled from the spec: the magnitude identifiers are declared outside the
source files at hand; these are the eight names `HLW8012Sensor::type` returns
("current, voltage, active power, reactive power, apparent power, power factor,
energy" and the undefined-magnitude sentinel). -/
inductive Magnitude where
  | MAGNITUDE_NONE
  | MAGNITUDE_CURRENT
  | MAGNITUDE_VOLTAGE
  | MAGNITUDE_POWER_ACTIVE
  | MAGNITUDE_POWER_REACTIVE
  | MAGNITUDE_POWER_APPARENT
  | MAGNITUDE_POWER_FACTOR
  | MAGNITUDE_ENERGY
  deriving DecidableEq, Repr

open SensorError Magnitude

/-! ## The meter behind the facade -/

/-- Modelled from the spec: the `HLW8012` meter class comes from a library and is
not among the source files.  It holds three calibration multipliers, "stored as
plain multipliers", and the seven readings its reading getters return in the
present state of the meter. -/
structure HLW8012 (R : Type) where
  current : R
  voltage : R
  activePower : R
  reactivePower : R
  apparentPower : R
  powerFactor : R
  energy : R
  _current_multiplier : R
  _voltage_multiplier : R
  _power_multiplier : R

namespace HLW8012

variable {R : Type}

def getCurrent (m : HLW8012 R) : R := m.current
def getVoltage (m : HLW8012 R) : R := m.voltage
def getActivePower (m : HLW8012 R) : R := m.activePower
def getReactivePower (m : HLW8012 R) : R := m.reactivePower
def getApparentPower (m : HLW8012 R) : R := m.apparentPower
def getPowerFactor (m : HLW8012 R) : R := m.powerFactor
def getEnergy (m : HLW8012 R) : R := m.energy

/-- Modelled from the spec: the multiplier setter of the absent meter class.
"Ratios must remain strictly positive"; a "non-positive ratio" is "rejected at the
setter, previous valid value retained": a strictly positive value is stored, any
other value leaves the meter as it was. -/
def setCurrentMultiplier [LT R] [OfNat R 0] [DecidableRel (fun a b : R => a < b)]
    (m : HLW8012 R) (current_multiplier : R) : HLW8012 R :=
  if 0 < current_multiplier then { m with _current_multiplier := current_multiplier } else m

/-- Modelled from the spec: as `setCurrentMultiplier`, for the voltage multiplier. -/
def setVoltageMultiplier [LT R] [OfNat R 0] [DecidableRel (fun a b : R => a < b)]
    (m : HLW8012 R) (voltage_multiplier : R) : HLW8012 R :=
  if 0 < voltage_multiplier then { m with _voltage_multiplier := voltage_multiplier } else m

/-- Modelled from the spec: as `setCurrentMultiplier`, for the power multiplier. -/
def setPowerMultiplier [LT R] [OfNat R 0] [DecidableRel (fun a b : R => a < b)]
    (m : HLW8012 R) (power_multiplier : R) : HLW8012 R :=
  if 0 < power_multiplier then { m with _power_multiplier := power_multiplier } else m

def getCurrentMultiplier (m : HLW8012 R) : R := m._current_multiplier
def getVoltageMultiplier (m : HLW8012 R) : R := m._voltage_multiplier
def getPowerMultiplier (m : HLW8012 R) : R := m._power_multiplier

end HLW8012

/-! ## The sensor facade -/

/-- The fields of an `HLW8012Sensor` object: `addr` is the address of the object
(`this`), `_dirty` and `_error` are the fields inherited from `BaseSensor`, the
rest are the members declared in the class. -/
structure HLW8012Sensor (R : Type) where
  addr : Nat
  _sel : Nat
  _cf : Nat
  _cf1 : Nat
  _sel_current : Bool
  _dirty : Bool
  _error : SensorError
  _hlw8012 : HLW8012 R

namespace HLW8012Sensor

variable {R : Type}

/-- Setter `void setSEL(unsigned char sel)`. -/
def setSEL (s : HLW8012Sensor R) (sel : Nat) : HLW8012Sensor R :=
  if s._sel = sel then s
  else { s with _sel := sel, _dirty := true }

/-- Setter `void setCF(unsigned char cf)`. -/
def setCF (s : HLW8012Sensor R) (cf : Nat) : HLW8012Sensor R :=
  if s._cf = cf then s
  else { s with _cf := cf, _dirty := true }

/-- Setter `void setCF1(unsigned char cf1)`. -/
def setCF1 (s : HLW8012Sensor R) (cf1 : Nat) : HLW8012Sensor R :=
  if s._cf1 = cf1 then s
  else { s with _cf1 := cf1, _dirty := true }

/-- Setter `void setCurrentRatio(double value)`. -/
def setCurrentRatio [LT R] [OfNat R 0] [DecidableRel (fun a b : R => a < b)]
    (s : HLW8012Sensor R) (value : R) : HLW8012Sensor R :=
  { s with _hlw8012 := s._hlw8012.setCurrentMultiplier value }

/-- Setter `void setVoltageRatio(double value)`. -/
def setVoltageRatio [LT R] [OfNat R 0] [DecidableRel (fun a b : R => a < b)]
    (s : HLW8012Sensor R) (value : R) : HLW8012Sensor R :=
  { s with _hlw8012 := s._hlw8012.setVoltageMultiplier value }

/-- Setter `void setPowerRatio(double value)`. -/
def setPowerRatio [LT R] [OfNat R 0] [DecidableRel (fun a b : R => a < b)]
    (s : HLW8012Sensor R) (value : R) : HLW8012Sensor R :=
  { s with _hlw8012 := s._hlw8012.setPowerMultiplier value }

def getSEL (s : HLW8012Sensor R) : Nat := s._sel
def getCF (s : HLW8012Sensor R) : Nat := s._cf
def getCF1 (s : HLW8012Sensor R) : Nat := s._cf1

def getCurrentRatio (s : HLW8012Sensor R) : R := s._hlw8012.getCurrentMultiplier
def getVoltageRatio (s : HLW8012Sensor R) : R := s._hlw8012.getVoltageMultiplier
def getPowerRatio (s : HLW8012Sensor R) : R := s._hlw8012.getPowerMultiplier

/-- Method `unsigned char type(unsigned char index)`: the object after the call and the
returned magnitude. -/
def type (s : HLW8012Sensor R) (index : Nat) : HLW8012Sensor R × Magnitude :=
  let s := { s with _error := SENSOR_ERROR_OK }
  if index = 0 then (s, MAGNITUDE_CURRENT)
  else if index = 1 then (s, MAGNITUDE_VOLTAGE)
  else if index = 2 then (s, MAGNITUDE_POWER_ACTIVE)
  else if index = 3 then (s, MAGNITUDE_POWER_REACTIVE)
  else if index = 4 then (s, MAGNITUDE_POWER_APPARENT)
  else if index = 5 then (s, MAGNITUDE_POWER_FACTOR)
  else if index = 6 then (s, MAGNITUDE_ENERGY)
  else ({ s with _error := SENSOR_ERROR_OUT_OF_RANGE }, MAGNITUDE_NONE)

/-- Method `double value(unsigned char index)`: the object after the call and the returned
value. -/
def value [Mul R] [OfNat R 100] [OfNat R 0] (s : HLW8012Sensor R) (index : Nat) :
    HLW8012Sensor R × R :=
  let s := { s with _error := SENSOR_ERROR_OK }
  if index = 0 then (s, s._hlw8012.getCurrent)
  else if index = 1 then (s, s._hlw8012.getVoltage)
  else if index = 2 then (s, s._hlw8012.getActivePower)
  else if index = 3 then (s, s._hlw8012.getReactivePower)
  else if index = 4 then (s, s._hlw8012.getApparentPower)
  else if index = 5 then (s, 100 * s._hlw8012.getPowerFactor)
  else if index = 6 then (s, s._hlw8012.getEnergy)
  else ({ s with _error := SENSOR_ERROR_OUT_OF_RANGE }, 0)

end HLW8012Sensor

/-! ## Interrupt registry and dispatch -/

/-- The slot computation `gpio > 5 ? gpio-6 : gpio` shared by `_hlw8012_sensor_isr`,
`_attach` and `_detach`. -/
def pinIndex (gpio : Nat) : Nat :=
  if gpio > 5 then gpio - 6 else gpio

/-- The table `_hlw8012_sensor_isr_list[10]`.  The trampoline `_hlw8012_sensor_isr_N`
is written as the number `N`, the argument it passes to `_hlw8012_sensor_isr`. -/
def _hlw8012_sensor_isr_list : List Nat := [0, 1, 2, 3, 4, 5, 12, 13, 14, 15]

/-- The state shared by all sensor objects.

* `_hlw8012_sensor_instance`: the global array of 10 owner pointers, `none` for
  `NULL`; only the indices below 10 belong to the array.
* `attached`: the interrupt vector of the board, written by `attachInterrupt` and
  `detachInterrupt`: the trampoline installed on each pin, if any.
* `_interrupt_cf`, `_interrupt_cf1`: the two `static` locals of
  `_enableInterrupts`; a function-local static exists once for the whole program,
  not once per object. -/
structure Sys where
  _hlw8012_sensor_instance : Nat → Option Nat
  attached : Nat → Option Nat
  _interrupt_cf : Nat
  _interrupt_cf1 : Nat

/-- The board function `attachInterrupt(pin, handler, mode)`: `handler` becomes the
routine run on an edge of `pin`.  The mode is `CHANGE` at every call and is left
out. -/
def attachInterrupt (vec : Nat → Option Nat) (pin handler : Nat) : Nat → Option Nat :=
  Function.update vec pin (some handler)

/-- The board function `detachInterrupt(pin)`. -/
def detachInterrupt (vec : Nat → Option Nat) (pin : Nat) : Nat → Option Nat :=
  Function.update vec pin none

/-- Function `void _hlw8012_sensor_isr(unsigned char gpio)`: the call
`owner->handleInterrupt(gpio)` it makes, as the pair `(owner, gpio)`, or `none`
when the slot is `NULL`.  Its only callers are the ten trampolines. -/
def _hlw8012_sensor_isr (sys : Sys) (gpio : Nat) : Option (Nat × Nat) :=
  let index := pinIndex gpio
  match sys._hlw8012_sensor_instance index with
  | some owner => some (owner, gpio)
  | none => none

/-- An edge on `pin`: the installed trampoline, if any, runs. -/
def edge (sys : Sys) (pin : Nat) : Option (Nat × Nat) :=
  match sys.attached pin with
  | some n => _hlw8012_sensor_isr sys n
  | none => none

section Registry

/- `gpioValid` is defined outside the two source files and `GPIO_NONE` is a constant
declared outside them: both are parameters of the code below. -/
variable (gpioValid : Nat → Bool) (GPIO_NONE : Nat)

/-- Method `void HLW8012Sensor::_detach(unsigned char gpio)`, called on the object `_this`
(the body never reads it).  `none`: the index is outside the 10-entry array. -/
def _detach (sys : Sys) (_this : Nat) (gpio : Nat) : Option Sys :=
  if !gpioValid gpio then some sys
  else
    let index := pinIndex gpio
    if index < 10 then
      if (sys._hlw8012_sensor_instance index).isSome then
        some { sys with
          attached := detachInterrupt sys.attached gpio
          _hlw8012_sensor_instance := Function.update sys._hlw8012_sensor_instance index none }
      else some sys
    else none

/-- Method `void HLW8012Sensor::_attach(HLW8012Sensor * instance, unsigned char gpio,
unsigned char mode)`, called on the object `_this`; `inst` is the `instance`
argument.  `none`: the index is outside the two 10-entry arrays. -/
def _attach (sys : Sys) (_this : Nat) (inst : Nat) (gpio : Nat) : Option Sys :=
  if !gpioValid gpio then some sys
  else
    (_detach gpioValid sys _this gpio).bind fun sys =>
      let index := pinIndex gpio
      match _hlw8012_sensor_isr_list[index]? with
      | some isr =>
        some { sys with
          _hlw8012_sensor_instance :=
            Function.update sys._hlw8012_sensor_instance index (some inst)
          attached := attachInterrupt sys.attached gpio isr }
      | none => none

/-- Method `void _enableInterrupts(bool value)` called on the object `s`. -/
def _enableInterrupts {R : Type} (sys : Sys) (s : HLW8012Sensor R) (value : Bool) :
    Option Sys :=
  if value then
    (if sys._interrupt_cf ≠ s._cf then
      ((if sys._interrupt_cf ≠ GPIO_NONE then _detach gpioValid sys s.addr sys._interrupt_cf
        else some sys).bind fun sys =>
        (_attach gpioValid sys s.addr s.addr s._cf).bind fun sys =>
          some { sys with _interrupt_cf := s._cf })
    else some sys).bind fun sys =>
    (if sys._interrupt_cf1 ≠ s._cf1 then
      ((if sys._interrupt_cf1 ≠ GPIO_NONE then _detach gpioValid sys s.addr sys._interrupt_cf1
        else some sys).bind fun sys =>
        (_attach gpioValid sys s.addr s.addr s._cf1).bind fun sys =>
          some { sys with _interrupt_cf1 := s._cf1 })
    else some sys)
  else
    (_detach gpioValid sys s.addr s._cf).bind fun sys =>
    (_detach gpioValid sys s.addr s._cf1).bind fun sys =>
      some { sys with _interrupt_cf := GPIO_NONE, _interrupt_cf1 := GPIO_NONE }

/-- One call made on a sensor object by its user. -/
inductive Call where
  | setCF (cf : Nat)
  | setCF1 (cf1 : Nat)
  | enableInterrupts (value : Bool)

/-- Run one call on the object `s` in the shared state `sys`. -/
def step {R : Type} (st : Sys × HLW8012Sensor R) : Call → Option (Sys × HLW8012Sensor R)
  | .setCF cf => some (st.1, st.2.setCF cf)
  | .setCF1 cf1 => some (st.1, st.2.setCF1 cf1)
  | .enableInterrupts value =>
    (_enableInterrupts gpioValid GPIO_NONE st.1 st.2 value).map fun sys => (sys, st.2)

/-- Run a sequence of calls, first to last. -/
def run {R : Type} (st : Sys × HLW8012Sensor R) : List Call → Option (Sys × HLW8012Sensor R)
  | [] => some st
  | c :: cs => (step gpioValid GPIO_NONE st c).bind fun st => run st cs

end Registry

/-- The state at program start: every slot `NULL` (`= {NULL}`), no trampoline
installed, both static locals at their initialiser `GPIO_NONE`.  Where the code is
evaluated on concrete pins below, `GPIO_NONE` is 153 (`0x99`), which is not a pin. -/
def Sys.init (GPIO_NONE : Nat) : Sys :=
  { _hlw8012_sensor_instance := fun _ => none
    attached := fun _ => none
    _interrupt_cf := GPIO_NONE
    _interrupt_cf1 := GPIO_NONE }

/-- Modelled from the spec: `gpioValid` is defined outside the source files at hand.
The registry is keyed by "a validated pin identifier" out of "the usable GPIO
identifiers"; the pins accepted here are the ten for which the source has a
trampoline.  It serves only to evaluate the code on concrete pins: the general
theorems take `gpioValid` as a parameter. -/
def gpioValidBank (gpio : Nat) : Bool :=
  decide (gpio ≤ 5 ∨ (12 ≤ gpio ∧ gpio ≤ 15))

/-! ## MQ135Sensor -/

/-- The members of `MQ135Sensor` declared in the class, with their initialisers. -/
structure MQ135Sensor (R : Type) where
  _samples : Nat
  _micros : Nat
  _factor : R
  _offset : R

namespace MQ135Sensor

variable {R : Type}

/-- The object as its member initialisers leave it: `_samples = 1`, `_micros = 0`,
`_factor = 1.0`, `_offset = 0.0`. -/
def init [OfNat R 1] [OfNat R 0] : MQ135Sensor R :=
  { _samples := 1, _micros := 0, _factor := 1, _offset := 0 }

/-- Setter `void setSamples(unsigned int samples)`. -/
def setSamples (s : MQ135Sensor R) (samples : Nat) : MQ135Sensor R :=
  if s._samples > 0 then { s with _samples := samples } else s

def getSamples (s : MQ135Sensor R) : Nat := s._samples

/-- The loop of `_rawRead`: `sum += analogRead(0)` for `i = 0 .. n-1`, with `sum`
an `unsigned long` of 32 bits; `adc i` is what the `i`-th `analogRead(0)` returns. -/
def sumReads (adc : Nat → Nat) : Nat → Nat
  | 0 => 0
  | n + 1 => (sumReads adc n + adc n) % 2 ^ 32

/-- Method `unsigned int _rawRead()`; `none` is the division by zero in
`sum / _samples`. -/
def _rawRead (s : MQ135Sensor R) (adc : Nat → Nat) : Option Nat :=
  if 1 = s._samples then some (adc 0)
  else
    let sum := sumReads adc s._samples
    if s._samples = 0 then none else some (sum / s._samples)

end MQ135Sensor

/-- A meter over the integers, used to evaluate the facade on concrete values. -/
def sampleMeter : HLW8012 Int :=
  { current := 2, voltage := 230, activePower := 400, reactivePower := 230,
    apparentPower := 460, powerFactor := 1, energy := 7,
    _current_multiplier := 1, _voltage_multiplier := 2, _power_multiplier := 3 }

/-- A sensor object at address 1 with SEL = 5, CF = 14, CF1 = 13. -/
def sampleSensor : HLW8012Sensor Int :=
  { addr := 1, _sel := 5, _cf := 14, _cf1 := 13, _sel_current := true,
    _dirty := false, _error := SENSOR_ERROR_OUT_OF_RANGE, _hlw8012 := sampleMeter }

/-- The sample sensor placed at address `addr` and configured with the pins `cf`
and `cf1`. -/
def sensorAt (addr cf cf1 : Nat) : HLW8012Sensor Int :=
  { sampleSensor with addr := addr, _cf := cf, _cf1 := cf1 }

/-- The state `(sys, s)` after the calls `cs`, read at the slot of `pin`. -/
def ownerAfter (gpioValid : Nat → Bool) (GPIO_NONE : Nat) {R : Type}
    (st : Sys × HLW8012Sensor R) (cs : List Call) (pin : Nat) : Option (Option Nat) :=
  (run gpioValid GPIO_NONE st cs).map fun st => st.1._hlw8012_sensor_instance (pinIndex pin)

open HLW8012Sensor

/-! ## Facade: slot table, pin setters, ratios -/

/-- C1. For every slot index `i ≤ 6`, `type(i)` is the `i`-th entry of the magnitude
table and `value(i)` the matching reading of the meter (slot 5: 100 times the power
factor), and the error code is `SENSOR_ERROR_OK` after either call whatever it was
before; for every `i ≥ 7`, `type(i)` is `MAGNITUDE_NONE`, `value(i)` is `0`, and the
error code is `SENSOR_ERROR_OUT_OF_RANGE` after either call. -/
theorem slot_table {R : Type} [Mul R] [OfNat R 100] [OfNat R 0]
    (s : HLW8012Sensor R) (i : Nat) :
    (i ≤ 6 →
      [MAGNITUDE_CURRENT, MAGNITUDE_VOLTAGE, MAGNITUDE_POWER_ACTIVE,
        MAGNITUDE_POWER_REACTIVE, MAGNITUDE_POWER_APPARENT, MAGNITUDE_POWER_FACTOR,
        MAGNITUDE_ENERGY][i]? = some (type s i).2 ∧
      [s._hlw8012.getCurrent, s._hlw8012.getVoltage, s._hlw8012.getActivePower,
        s._hlw8012.getReactivePower, s._hlw8012.getApparentPower,
        100 * s._hlw8012.getPowerFactor, s._hlw8012.getEnergy][i]? = some (value s i).2 ∧
      (type s i).1._error = SENSOR_ERROR_OK ∧
      (value s i).1._error = SENSOR_ERROR_OK) ∧
    (7 ≤ i →
      (type s i).2 = MAGNITUDE_NONE ∧
      (value s i).2 = 0 ∧
      (type s i).1._error = SENSOR_ERROR_OUT_OF_RANGE ∧
      (value s i).1._error = SENSOR_ERROR_OUT_OF_RANGE) := by
  constructor
  · intro h
    interval_cases i <;> simp [type, value]
  · intro h
    have h0 : i ≠ 0 := by omega
    have h1 : i ≠ 1 := by omega
    have h2 : i ≠ 2 := by omega
    have h3 : i ≠ 3 := by omega
    have h4 : i ≠ 4 := by omega
    have h5 : i ≠ 5 := by omega
    have h6 : i ≠ 6 := by omega
    simp [type, value, h0, h1, h2, h3, h4, h5, h6]

/-- C1, evaluated: slot 5 of the sample sensor (error code `OUT_OF_RANGE` before the
call) is the power factor times 100 with error code `OK`, and slot 7 is the
sentinel with error code `OUT_OF_RANGE`. -/
theorem slot_table_witness :
    ((5 : Nat) ≤ 6 ∧ (type sampleSensor 5).2 = MAGNITUDE_POWER_FACTOR ∧
      (value sampleSensor 5).2 = 100 ∧ (value sampleSensor 5).1._error = SENSOR_ERROR_OK) ∧
    ((7 : Nat) ≤ 7 ∧ (type sampleSensor 7).2 = MAGNITUDE_NONE ∧
      (value sampleSensor 7).2 = 0 ∧
      (value sampleSensor 7).1._error = SENSOR_ERROR_OUT_OF_RANGE) := by
  have h5 := (slot_table sampleSensor 5).1 (by decide)
  have h7 := (slot_table sampleSensor 7).2 (by decide)
  refine ⟨⟨by decide, ?_, ?_, h5.2.2.2⟩, ⟨by decide, h7.1, h7.2.1, h7.2.2.2⟩⟩
  · have := h5.1
    simpa using this.symm
  · have := h5.2.1
    simpa [sampleSensor, sampleMeter, HLW8012.getPowerFactor] using this.symm

/-- C8. For each of `setSEL`, `setCF`, `setCF1` and every pin value `v`: when `v`
differs from the stored pin the call stores `v` in that pin field, sets the dirty
flag and leaves the other two pin fields as they were; when `v` equals the stored
pin the object is unchanged (the dirty flag keeps its value). -/
theorem pin_setters_dirty {R : Type} (s : HLW8012Sensor R) (v : Nat) :
    (v ≠ s._sel → (setSEL s v)._sel = v ∧ (setSEL s v)._dirty = true ∧
      (setSEL s v)._cf = s._cf ∧ (setSEL s v)._cf1 = s._cf1) ∧
    (v = s._sel → setSEL s v = s) ∧
    (v ≠ s._cf → (setCF s v)._cf = v ∧ (setCF s v)._dirty = true ∧
      (setCF s v)._sel = s._sel ∧ (setCF s v)._cf1 = s._cf1) ∧
    (v = s._cf → setCF s v = s) ∧
    (v ≠ s._cf1 → (setCF1 s v)._cf1 = v ∧ (setCF1 s v)._dirty = true ∧
      (setCF1 s v)._sel = s._sel ∧ (setCF1 s v)._cf = s._cf) ∧
    (v = s._cf1 → setCF1 s v = s) := by
  refine ⟨?_, ?_, ?_, ?_, ?_, ?_⟩
  · intro h
    have h' : ¬ s._sel = v := fun e => h e.symm
    simp [setSEL, h']
  · intro h
    simp [setSEL, h]
  · intro h
    have h' : ¬ s._cf = v := fun e => h e.symm
    simp [setCF, h']
  · intro h
    simp [setCF, h]
  · intro h
    have h' : ¬ s._cf1 = v := fun e => h e.symm
    simp [setCF1, h']
  · intro h
    simp [setCF1, h]

/-- C8, evaluated on the sample sensor (SEL 5, CF 14, CF1 13, not dirty): `setCF 4`
stores 4 and sets the dirty flag, `setCF 14` changes nothing. -/
theorem pin_setters_dirty_witness :
    ((4 : Nat) ≠ sampleSensor._cf ∧ (setCF sampleSensor 4)._cf = 4 ∧
      (setCF sampleSensor 4)._dirty = true ∧ (setCF sampleSensor 4)._sel = 5 ∧
      (setCF sampleSensor 4)._cf1 = 13) ∧
    ((14 : Nat) = sampleSensor._cf ∧ setCF sampleSensor 14 = sampleSensor ∧
      sampleSensor._dirty = false) :=
  ⟨⟨by decide, (pin_setters_dirty sampleSensor 4).2.2.1 (by decide)⟩,
    ⟨rfl, (pin_setters_dirty sampleSensor 14).2.2.2.1 rfl, rfl⟩⟩

/-- C7. For every positive `r`: the getter of a channel called after the setter of
that channel with `r` returns `r`, and the setter leaves what the getters of the
other two channels return unchanged; and after setting the three ratios, in any of
the six orders, each getter returns the value set for its own channel. -/
theorem ratio_round_trip {R : Type} [LT R] [OfNat R 0]
    [DecidableRel (fun a b : R => a < b)] (s : HLW8012Sensor R)
    (r rc rv rp : R) (hr : 0 < r) (hc : 0 < rc) (hv : 0 < rv) (hp : 0 < rp) :
    (getCurrentRatio (setCurrentRatio s r) = r ∧
      getVoltageRatio (setCurrentRatio s r) = getVoltageRatio s ∧
      getPowerRatio (setCurrentRatio s r) = getPowerRatio s) ∧
    (getVoltageRatio (setVoltageRatio s r) = r ∧
      getCurrentRatio (setVoltageRatio s r) = getCurrentRatio s ∧
      getPowerRatio (setVoltageRatio s r) = getPowerRatio s) ∧
    (getPowerRatio (setPowerRatio s r) = r ∧
      getCurrentRatio (setPowerRatio s r) = getCurrentRatio s ∧
      getVoltageRatio (setPowerRatio s r) = getVoltageRatio s) ∧
    (∀ t ∈ [setPowerRatio (setVoltageRatio (setCurrentRatio s rc) rv) rp,
        setVoltageRatio (setPowerRatio (setCurrentRatio s rc) rp) rv,
        setPowerRatio (setCurrentRatio (setVoltageRatio s rv) rc) rp,
        setCurrentRatio (setPowerRatio (setVoltageRatio s rv) rp) rc,
        setVoltageRatio (setCurrentRatio (setPowerRatio s rp) rc) rv,
        setCurrentRatio (setVoltageRatio (setPowerRatio s rp) rv) rc],
      getCurrentRatio t = rc ∧ getVoltageRatio t = rv ∧ getPowerRatio t = rp) := by
  refine ⟨?_, ?_, ?_, ?_⟩
  · simp [setCurrentRatio, getCurrentRatio, getVoltageRatio, getPowerRatio,
      HLW8012.setCurrentMultiplier, HLW8012.getCurrentMultiplier,
      HLW8012.getVoltageMultiplier, HLW8012.getPowerMultiplier, hr]
  · simp [setVoltageRatio, getCurrentRatio, getVoltageRatio, getPowerRatio,
      HLW8012.setVoltageMultiplier, HLW8012.getCurrentMultiplier,
      HLW8012.getVoltageMultiplier, HLW8012.getPowerMultiplier, hr]
  · simp [setPowerRatio, getCurrentRatio, getVoltageRatio, getPowerRatio,
      HLW8012.setPowerMultiplier, HLW8012.getCurrentMultiplier,
      HLW8012.getVoltageMultiplier, HLW8012.getPowerMultiplier, hr]
  · intro t ht
    simp only [List.mem_cons, List.mem_singleton, List.not_mem_nil, or_false] at ht
    rcases ht with h | h | h | h | h | h <;> subst h <;>
      simp [setCurrentRatio, setVoltageRatio, setPowerRatio, getCurrentRatio,
        getVoltageRatio, getPowerRatio, HLW8012.setCurrentMultiplier,
        HLW8012.setVoltageMultiplier, HLW8012.setPowerMultiplier,
        HLW8012.getCurrentMultiplier, HLW8012.getVoltageMultiplier,
        HLW8012.getPowerMultiplier, hc, hv, hp]

/-- C7, evaluated on the sample sensor (ratios 1, 2, 3) with `r = 9` and the three
ratios 4, 5, 6. -/
theorem ratio_round_trip_witness :
    ((0 : Int) < 9 ∧ (0 : Int) < 4 ∧ (0 : Int) < 5 ∧ (0 : Int) < 6) ∧
    getCurrentRatio (setCurrentRatio sampleSensor 9) = 9 ∧
    getVoltageRatio (setCurrentRatio sampleSensor 9) = 2 ∧
    getPowerRatio (setCurrentRatio sampleSensor 9) = 3 ∧
    getCurrentRatio (setCurrentRatio (setPowerRatio (setVoltageRatio sampleSensor 5) 6) 4) = 4 :=
  have h := ratio_round_trip sampleSensor 9 4 5 6 (by decide) (by decide) (by decide)
    (by decide)
  ⟨⟨by decide, by decide, by decide, by decide⟩, h.1.1, h.1.2.1, h.1.2.2,
    (h.2.2.2 _ (by simp)).1⟩

/-- C6. For each of `setCurrentRatio`, `setVoltageRatio`, `setPowerRatio` and every
value `v ≤ 0`: the call leaves the sensor object, and so the stored ratio, as it
was, and the matching getter afterwards returns the previous ratio.  The facade
setter passes `v` on unchecked; the rejection is that of the meter setter. -/
theorem ratio_nonpositive_rejected {R : Type} [Preorder R] [OfNat R 0]
    [DecidableRel (fun a b : R => a < b)] (s : HLW8012Sensor R) (v : R) (hv : v ≤ 0) :
    (setCurrentRatio s v = s ∧ getCurrentRatio (setCurrentRatio s v) = getCurrentRatio s) ∧
    (setVoltageRatio s v = s ∧ getVoltageRatio (setVoltageRatio s v) = getVoltageRatio s) ∧
    (setPowerRatio s v = s ∧ getPowerRatio (setPowerRatio s v) = getPowerRatio s) := by
  have hn : ¬ (0 : R) < v := fun h => lt_irrefl _ (lt_of_lt_of_le h hv)
  have hc : setCurrentRatio s v = s := by
    simp [setCurrentRatio, HLW8012.setCurrentMultiplier, hn]
  have hvo : setVoltageRatio s v = s := by
    simp [setVoltageRatio, HLW8012.setVoltageMultiplier, hn]
  have hp : setPowerRatio s v = s := by
    simp [setPowerRatio, HLW8012.setPowerMultiplier, hn]
  exact ⟨⟨hc, by rw [hc]⟩, ⟨hvo, by rw [hvo]⟩, ⟨hp, by rw [hp]⟩⟩

/-- C6, evaluated on the sample sensor (ratios 1, 2, 3) with the value `-1`: the
three getters still return 1, 2 and 3. -/
theorem ratio_nonpositive_rejected_witness :
    (-1 : Int) ≤ 0 ∧
    getCurrentRatio (setCurrentRatio sampleSensor (-1)) = 1 ∧
    getVoltageRatio (setVoltageRatio sampleSensor (-1)) = 2 ∧
    getPowerRatio (setPowerRatio sampleSensor (-1)) = 3 :=
  have h := ratio_nonpositive_rejected sampleSensor (-1) (by decide)
  ⟨by decide, h.1.2.trans rfl, h.2.1.2.trans rfl, h.2.2.2.trans rfl⟩

/-! ## Registry indexing -/

/-- C9. For every pin `g` of `{0,1,2,3,4,5,12,13,14,15}` the slot index is below 10,
the length of both tables; distinct pins of the set have distinct indices; the
trampoline stored at that index of `_hlw8012_sensor_isr_list` passes exactly `g`.
Each pin `g` of `6..11` has the index of the pin `g - 6` of `0..5`. -/
theorem registry_indexing :
    _hlw8012_sensor_isr_list.length = 10 ∧
    (∀ g ∈ [0, 1, 2, 3, 4, 5, 12, 13, 14, 15],
      pinIndex g < 10 ∧ _hlw8012_sensor_isr_list[pinIndex g]? = some g ∧
      ∀ g2 ∈ [0, 1, 2, 3, 4, 5, 12, 13, 14, 15], pinIndex g = pinIndex g2 → g = g2) ∧
    (∀ g ∈ [6, 7, 8, 9, 10, 11], g - 6 ∈ [0, 1, 2, 3, 4, 5] ∧ g ≠ g - 6 ∧
      pinIndex g = pinIndex (g - 6)) := by
  decide

/-! ## Registry: effect of `_detach` and `_attach` -/

theorem pinIndex_lt_of_bank {g : Nat} (h : g ≤ 5 ∨ (12 ≤ g ∧ g ≤ 15)) : pinIndex g < 10 := by
  unfold pinIndex
  split <;> omega

theorem isr_list_of_bank {g : Nat} (h : g ≤ 5 ∨ (12 ≤ g ∧ g ≤ 15)) :
    _hlw8012_sensor_isr_list[pinIndex g]? = some g := by
  rcases h with h | ⟨h1, h2⟩ <;> interval_cases g <;> rfl

theorem pinIndex_inj_of_bank {g g2 : Nat} (h : g ≤ 5 ∨ (12 ≤ g ∧ g ≤ 15))
    (h2 : g2 ≤ 5 ∨ (12 ≤ g2 ∧ g2 ≤ 15)) (e : pinIndex g = pinIndex g2) : g = g2 := by
  unfold pinIndex at e
  split at e <;> split at e <;> omega

/-- What `_detach` does when the pin, if valid, is one of the pins with a
trampoline: it returns, keeps the two static locals, and clears the slot of a valid
pin. -/
theorem detach_spec (gpioValid : Nat → Bool) (sys : Sys) (t g : Nat)
    (hb : gpioValid g = true → g ≤ 5 ∨ (12 ≤ g ∧ g ≤ 15)) :
    ∃ s2, _detach gpioValid sys t g = some s2 ∧
      s2._interrupt_cf = sys._interrupt_cf ∧ s2._interrupt_cf1 = sys._interrupt_cf1 ∧
      s2._hlw8012_sensor_instance =
        (if gpioValid g = true then Function.update sys._hlw8012_sensor_instance (pinIndex g) none
         else sys._hlw8012_sensor_instance) ∧
      (gpioValid g = true → (sys._hlw8012_sensor_instance (pinIndex g)).isSome = true →
        s2.attached g = none) := by
  by_cases hv : gpioValid g = true
  · have hlt := pinIndex_lt_of_bank (hb hv)
    by_cases ho : (sys._hlw8012_sensor_instance (pinIndex g)).isSome = true
    · refine ⟨{ sys with
          attached := detachInterrupt sys.attached g
          _hlw8012_sensor_instance :=
            Function.update sys._hlw8012_sensor_instance (pinIndex g) none },
        by simp [_detach, hv, hlt, ho], rfl, rfl, by simp [hv], ?_⟩
      intro _ _
      simp [detachInterrupt]
    · refine ⟨sys, by simp [_detach, hv, hlt, ho], rfl, rfl, ?_, ?_⟩
      · have hn : sys._hlw8012_sensor_instance (pinIndex g) = none := by
          simpa using ho
        simp only [hv, if_true]
        rw [← hn, Function.update_eq_self]
      · intro _ h
        exact absurd h ho
  · refine ⟨sys, by simp [_detach, hv], rfl, rfl, by simp [hv], ?_⟩
    intro h
    exact absurd h hv

/-- What `_attach` does when the pin, if valid, is one of the pins with a
trampoline: it returns, keeps the two static locals, and for a valid pin writes the
new owner into the slot and installs the trampoline of that pin. -/
theorem attach_spec (gpioValid : Nat → Bool) (sys : Sys) (t inst g : Nat)
    (hb : gpioValid g = true → g ≤ 5 ∨ (12 ≤ g ∧ g ≤ 15)) :
    ∃ s2, _attach gpioValid sys t inst g = some s2 ∧
      s2._interrupt_cf = sys._interrupt_cf ∧ s2._interrupt_cf1 = sys._interrupt_cf1 ∧
      s2._hlw8012_sensor_instance =
        (if gpioValid g = true then
          Function.update sys._hlw8012_sensor_instance (pinIndex g) (some inst)
         else sys._hlw8012_sensor_instance) ∧
      (gpioValid g = true → s2.attached g = some g) := by
  by_cases hv : gpioValid g = true
  · obtain ⟨s1, h1, hc, hc1, hi, -⟩ := detach_spec gpioValid sys t g hb
    have hl := isr_list_of_bank (hb hv)
    refine ⟨{ s1 with
        _hlw8012_sensor_instance :=
          Function.update s1._hlw8012_sensor_instance (pinIndex g) (some inst)
        attached := attachInterrupt s1.attached g g },
      by simp [_attach, hv, h1, hl], hc, hc1, ?_, ?_⟩
    · simp only [hi, hv, if_true, Function.update_idem]
    · intro _
      simp [attachInterrupt]
  · refine ⟨sys, by simp [_attach, hv], rfl, rfl, by simp [hv], ?_⟩
    intro h
    exact absurd h hv

/-- C2. For every valid interrupt pin `p` and distinct instances `A`, `B`: both
`_attach(A, p)` and the following `_attach(B, p)` return; after the first the slot
of `p` is owned by `A`, after the second by `B`; the trampoline installed on `p`
is the one of `p`, and an edge on `p` makes the single call `handleInterrupt(p)` on
`B`, none on `A`. -/
theorem attach_last_wins (gpioValid : Nat → Bool) (sys : Sys) (t1 t2 A B p : Nat)
    (hvalid : gpioValid p = true) (hbank : p ≤ 5 ∨ (12 ≤ p ∧ p ≤ 15)) (hAB : A ≠ B) :
    ∃ s1 s2, _attach gpioValid sys t1 A p = some s1 ∧
      _attach gpioValid s1 t2 B p = some s2 ∧
      s1._hlw8012_sensor_instance (pinIndex p) = some A ∧
      s2._hlw8012_sensor_instance (pinIndex p) = some B ∧
      s2.attached p = some p ∧
      _hlw8012_sensor_isr s2 p = some (B, p) ∧
      edge s2 p = some (B, p) ∧ edge s2 p ≠ some (A, p) := by
  obtain ⟨s1, h1, -, -, hi1, -⟩ := attach_spec gpioValid sys t1 A p (fun _ => hbank)
  obtain ⟨s2, h2, -, -, hi2, ha2⟩ := attach_spec gpioValid s1 t2 B p (fun _ => hbank)
  have hs1 : s1._hlw8012_sensor_instance (pinIndex p) = some A := by
    simp [hi1, hvalid]
  have hs2 : s2._hlw8012_sensor_instance (pinIndex p) = some B := by
    simp [hi2, hvalid]
  have hisr : _hlw8012_sensor_isr s2 p = some (B, p) := by
    simp [_hlw8012_sensor_isr, hs2]
  have hedge : edge s2 p = some (B, p) := by
    simp [edge, ha2 hvalid, hisr]
  refine ⟨s1, s2, h1, h2, hs1, hs2, ha2 hvalid, hisr, hedge, ?_⟩
  rw [hedge]
  intro h
  simp only [Option.some.injEq, Prod.mk.injEq, and_true] at h
  exact hAB h.symm

/-- C2, evaluated: pin 4, first instance 1, then instance 2, from the initial
state. -/
theorem attach_last_wins_witness :
    gpioValidBank 4 = true ∧ (1 : Nat) ≠ 2 ∧
    ∃ s1 s2, _attach gpioValidBank (Sys.init 153) 1 1 4 = some s1 ∧
      _attach gpioValidBank s1 2 2 4 = some s2 ∧
      s1._hlw8012_sensor_instance (pinIndex 4) = some 1 ∧
      s2._hlw8012_sensor_instance (pinIndex 4) = some 2 ∧
      s2.attached 4 = some 4 ∧
      _hlw8012_sensor_isr s2 4 = some (2, 4) ∧
      edge s2 4 = some (2, 4) ∧ edge s2 4 ≠ some (1, 4) :=
  ⟨by decide, by decide,
    attach_last_wins gpioValidBank (Sys.init 153) 1 2 1 2 4 (by decide) (by decide)
      (by decide)⟩

/-- C5, refuted: instance 1 owns the slot of pin 4; `_detach(4)` called on instance 2
returns with that slot empty. -/
theorem detach_by_other_clears :
    (_attach gpioValidBank (Sys.init 153) 1 1 4).map
      (fun s => s._hlw8012_sensor_instance (pinIndex 4)) = some (some 1) ∧
    ((_attach gpioValidBank (Sys.init 153) 1 1 4).bind
      (fun s => _detach gpioValidBank s 2 4)).map
      (fun s => s._hlw8012_sensor_instance (pinIndex 4)) = some none := by
  decide

/-- C5, amended. For every valid pin `p`, `_detach(p)` returns with the slot of `p`
empty whoever owned it and whichever instance made the call (owner and caller are
never compared); when the slot was occupied the trampoline of `p` is uninstalled;
every other slot is unchanged.  For a pin rejected by `gpioValid` the call changes
nothing. -/
theorem detach_clears_any_owner (gpioValid : Nat → Bool) (sys : Sys) (caller p : Nat) :
    (gpioValid p = true → (p ≤ 5 ∨ (12 ≤ p ∧ p ≤ 15)) →
      ∃ s2, _detach gpioValid sys caller p = some s2 ∧
        s2._hlw8012_sensor_instance (pinIndex p) = none ∧
        (∀ j, j ≠ pinIndex p →
          s2._hlw8012_sensor_instance j = sys._hlw8012_sensor_instance j) ∧
        ((sys._hlw8012_sensor_instance (pinIndex p)).isSome = true → s2.attached p = none)) ∧
    (gpioValid p = false → _detach gpioValid sys caller p = some sys) := by
  constructor
  · intro hv hb
    obtain ⟨s2, h, -, -, hi, ha⟩ := detach_spec gpioValid sys caller p (fun _ => hb)
    refine ⟨s2, h, by simp [hi, hv], ?_, ha hv⟩
    intro j hj
    simp [hi, hv, Function.update_noteq hj]
  · intro hv
    simp [_detach, hv]

/-- C5 amended, evaluated: pin 4 owned by instance 1 and detached by instance 2;
pin 7 is rejected. -/
theorem detach_clears_any_owner_witness :
    (gpioValidBank 4 = true ∧
      ∃ s2, _detach gpioValidBank
          { Sys.init 153 with _hlw8012_sensor_instance := fun j => if j = 4 then some 1 else none }
          2 4 = some s2 ∧
        s2._hlw8012_sensor_instance (pinIndex 4) = none) ∧
    (gpioValidBank 7 = false ∧
      _detach gpioValidBank (Sys.init 153) 2 7 = some (Sys.init 153)) :=
  ⟨⟨by decide,
      let ⟨s2, h, hn, _⟩ := (detach_clears_any_owner gpioValidBank
        { Sys.init 153 with _hlw8012_sensor_instance := fun j => if j = 4 then some 1 else none }
        2 4).1 (by decide) (by decide)
      ⟨s2, h, hn⟩⟩,
    ⟨by decide, (detach_clears_any_owner gpioValidBank (Sys.init 153) 2 7).2 (by decide)⟩⟩

/-! ## `_enableInterrupts` -/

/-- One channel of `_enableInterrupts(true)` once its guard has passed: detach the
tracked pin unless it is `GPIO_NONE`, then attach the configured pin. -/
theorem channel_spec (gpioValid : Nat → Bool) (GPIO_NONE : Nat)
    (hbank : ∀ g, gpioValid g = true → g ≤ 5 ∨ (12 ≤ g ∧ g ≤ 15))
    (sys : Sys) (a tracker pin : Nat) :
    ∃ s1 s2, (if tracker ≠ GPIO_NONE then _detach gpioValid sys a tracker else some sys)
        = some s1 ∧
      _attach gpioValid s1 a a pin = some s2 ∧
      s2._interrupt_cf = sys._interrupt_cf ∧ s2._interrupt_cf1 = sys._interrupt_cf1 ∧
      ∀ j, s2._hlw8012_sensor_instance j =
        if gpioValid pin = true ∧ j = pinIndex pin then some a
        else if tracker ≠ GPIO_NONE ∧ gpioValid tracker = true ∧ j = pinIndex tracker then none
        else sys._hlw8012_sensor_instance j := by
  obtain ⟨s1, h1, c1, d1, i1⟩ : ∃ s1,
      (if tracker ≠ GPIO_NONE then _detach gpioValid sys a tracker else some sys) = some s1 ∧
      s1._interrupt_cf = sys._interrupt_cf ∧ s1._interrupt_cf1 = sys._interrupt_cf1 ∧
      s1._hlw8012_sensor_instance =
        (if tracker ≠ GPIO_NONE ∧ gpioValid tracker = true then
          Function.update sys._hlw8012_sensor_instance (pinIndex tracker) none
         else sys._hlw8012_sensor_instance) := by
    by_cases ht : tracker ≠ GPIO_NONE
    · obtain ⟨s1, h, c, d, i, -⟩ := detach_spec gpioValid sys a tracker (hbank tracker)
      refine ⟨s1, by simp [ht, h], c, d, ?_⟩
      rw [i]
      simp [ht]
    · exact ⟨sys, by simp [ht], rfl, rfl, by simp [ht]⟩
  obtain ⟨s2, h2, c2, d2, i2, -⟩ := attach_spec gpioValid s1 a a pin (hbank pin)
  refine ⟨s1, s2, h1, h2, c2.trans c1, d2.trans d1, ?_⟩
  intro j
  rw [i2, i1]
  clear i1 i2 h1 h2 c1 c2 d1 d2
  by_cases hp : gpioValid pin = true <;> by_cases ht : tracker ≠ GPIO_NONE
    <;> by_cases hv : gpioValid tracker = true
    <;> by_cases hj : j = pinIndex pin <;> by_cases hk : j = pinIndex tracker
    <;> simp [hp, ht, hv, hj, hk, Function.update_apply]

/-- What `_enableInterrupts(true)` does when `gpioValid` accepts only pins with a
trampoline: it returns, leaves the two static locals equal to the pins of the
calling object, and each slot is decided by the last write that reached it (CF1
attach, CF1 detach, CF attach, CF detach), each made only when the static local of
its channel differs from the pin of the object. -/
theorem enable_true_spec (gpioValid : Nat → Bool) (GPIO_NONE : Nat)
    (hbank : ∀ g, gpioValid g = true → g ≤ 5 ∨ (12 ≤ g ∧ g ≤ 15))
    {R : Type} (sys : Sys) (s : HLW8012Sensor R) :
    ∃ s2, _enableInterrupts gpioValid GPIO_NONE sys s true = some s2 ∧
      s2._interrupt_cf = s._cf ∧ s2._interrupt_cf1 = s._cf1 ∧
      ∀ j, s2._hlw8012_sensor_instance j =
        if sys._interrupt_cf1 ≠ s._cf1 ∧ gpioValid s._cf1 = true ∧ j = pinIndex s._cf1 then
          some s.addr
        else if sys._interrupt_cf1 ≠ s._cf1 ∧ sys._interrupt_cf1 ≠ GPIO_NONE ∧
            gpioValid sys._interrupt_cf1 = true ∧ j = pinIndex sys._interrupt_cf1 then none
        else if sys._interrupt_cf ≠ s._cf ∧ gpioValid s._cf = true ∧ j = pinIndex s._cf then
          some s.addr
        else if sys._interrupt_cf ≠ s._cf ∧ sys._interrupt_cf ≠ GPIO_NONE ∧
            gpioValid sys._interrupt_cf = true ∧ j = pinIndex sys._interrupt_cf then none
        else sys._hlw8012_sensor_instance j := by
  -- the CF channel
  obtain ⟨m, hm, cm, dm, im⟩ : ∃ m,
      (if sys._interrupt_cf ≠ s._cf then
        ((if sys._interrupt_cf ≠ GPIO_NONE then _detach gpioValid sys s.addr sys._interrupt_cf
          else some sys).bind fun sys =>
          (_attach gpioValid sys s.addr s.addr s._cf).bind fun sys =>
            some { sys with _interrupt_cf := s._cf })
       else some sys) = some m ∧
      m._interrupt_cf = s._cf ∧ m._interrupt_cf1 = sys._interrupt_cf1 ∧
      ∀ j, m._hlw8012_sensor_instance j =
        if sys._interrupt_cf ≠ s._cf ∧ gpioValid s._cf = true ∧ j = pinIndex s._cf then
          some s.addr
        else if sys._interrupt_cf ≠ s._cf ∧ sys._interrupt_cf ≠ GPIO_NONE ∧
            gpioValid sys._interrupt_cf = true ∧ j = pinIndex sys._interrupt_cf then none
        else sys._hlw8012_sensor_instance j := by
    by_cases hg : sys._interrupt_cf ≠ s._cf
    · obtain ⟨s1, s2, h1, h2, -, d2, i2⟩ :=
        channel_spec gpioValid GPIO_NONE hbank sys s.addr sys._interrupt_cf s._cf
      refine ⟨{ s2 with _interrupt_cf := s._cf }, ?_, rfl, d2, ?_⟩
      · rw [if_pos hg, h1]
        simp [h2]
      · intro j
        simp only [i2 j, hg, ne_eq, not_false_eq_true, true_and]
    · refine ⟨sys, by rw [if_neg hg], not_not.mp hg, rfl, ?_⟩
      intro j
      simp [hg]
  -- the CF1 channel
  obtain ⟨n, hn, cn, dn, jn⟩ : ∃ n,
      (if m._interrupt_cf1 ≠ s._cf1 then
        ((if m._interrupt_cf1 ≠ GPIO_NONE then _detach gpioValid m s.addr m._interrupt_cf1
          else some m).bind fun sys =>
          (_attach gpioValid sys s.addr s.addr s._cf1).bind fun sys =>
            some { sys with _interrupt_cf1 := s._cf1 })
       else some m) = some n ∧
      n._interrupt_cf = m._interrupt_cf ∧ n._interrupt_cf1 = s._cf1 ∧
      ∀ j, n._hlw8012_sensor_instance j =
        if m._interrupt_cf1 ≠ s._cf1 ∧ gpioValid s._cf1 = true ∧ j = pinIndex s._cf1 then
          some s.addr
        else if m._interrupt_cf1 ≠ s._cf1 ∧ m._interrupt_cf1 ≠ GPIO_NONE ∧
            gpioValid m._interrupt_cf1 = true ∧ j = pinIndex m._interrupt_cf1 then none
        else m._hlw8012_sensor_instance j := by
    by_cases hg : m._interrupt_cf1 ≠ s._cf1
    · obtain ⟨s1, s2, h1, h2, c2, -, i2⟩ :=
        channel_spec gpioValid GPIO_NONE hbank m s.addr m._interrupt_cf1 s._cf1
      refine ⟨{ s2 with _interrupt_cf1 := s._cf1 }, ?_, c2, rfl, ?_⟩
      · rw [if_pos hg, h1]
        simp [h2]
      · intro j
        simp only [i2 j, hg, ne_eq, not_false_eq_true, true_and]
    · refine ⟨m, by rw [if_neg hg], rfl, not_not.mp hg, ?_⟩
      intro j
      simp [hg]
  refine ⟨n, ?_, cn.trans cm, dn, ?_⟩
  · simp only [_enableInterrupts, ↓reduceIte, hm, Option.some_bind]
    exact hn
  · intro j
    rw [jn j, im j, dm]

/-- C3, evaluated at the failing input.  One object at address 1, from the initial
state: `setCF(4); setCF1(5); _enableInterrupts(true)` gives it the slots of pins 4
and 5; after `setCF(12); _enableInterrupts(false)` the slot of pin 4 still refers
to it, the trampoline of pin 4 is still installed, and an edge on pin 4 is still
dispatched to it, while both static locals are back at `GPIO_NONE`. -/
theorem disable_leaves_old_pin :
    ownerAfter gpioValidBank 153 (Sys.init 153, sampleSensor)
      [.setCF 4, .setCF1 5, .enableInterrupts true] 4 = some (some 1) ∧
    ownerAfter gpioValidBank 153 (Sys.init 153, sampleSensor)
      [.setCF 4, .setCF1 5, .enableInterrupts true, .setCF 12, .enableInterrupts false] 4
      = some (some 1) ∧
    (run gpioValidBank 153 (Sys.init 153, sampleSensor)
      [.setCF 4, .setCF1 5, .enableInterrupts true, .setCF 12, .enableInterrupts false]).map
      (fun st => (st.1.attached 4, edge st.1 4, st.1._interrupt_cf, st.1._interrupt_cf1))
      = some (some 4, some (1, 4), 153, 153) := by
  decide

/-- C4, evaluated at the failing input.  From the initial state, instance 1 (CF 4,
CF1 5) enables its interrupts and owns the slot of pin 4; then instance 2 with the
same CF pin 4 (CF1 12) enables its interrupts: the slot of pin 4 is still owned by
instance 1, and an edge on pin 4 is still dispatched to instance 1.  When instance
2 has pin 4 on the other channel instead (CF 12, CF1 4), the same two calls leave
the slot of pin 4 owned by instance 2. -/
theorem enable_same_pin_keeps_first :
    (_enableInterrupts gpioValidBank 153 (Sys.init 153) (sensorAt 1 4 5) true).map
      (fun s => s._hlw8012_sensor_instance (pinIndex 4)) = some (some 1) ∧
    ((_enableInterrupts gpioValidBank 153 (Sys.init 153) (sensorAt 1 4 5) true).bind
      (fun s => _enableInterrupts gpioValidBank 153 s (sensorAt 2 4 12) true)).map
      (fun s => s._hlw8012_sensor_instance (pinIndex 4)) = some (some 1) ∧
    ((_enableInterrupts gpioValidBank 153 (Sys.init 153) (sensorAt 1 4 5) true).bind
      (fun s => _enableInterrupts gpioValidBank 153 s (sensorAt 2 4 12) true)).map
      (fun s => edge s 4) = some (some (1, 4)) ∧
    ((_enableInterrupts gpioValidBank 153 (Sys.init 153) (sensorAt 1 4 5) true).bind
      (fun s => _enableInterrupts gpioValidBank 153 s (sensorAt 2 12 4) true)).map
      (fun s => s._hlw8012_sensor_instance (pinIndex 4)) = some (some 2) := by
  decide

/-! ## MQ135Sensor: sample count -/

/-- C10, evaluated at the failing input: from the initial object (`_samples = 1`)
the call `setSamples(0)` stores 0, `_rawRead` then divides by zero, and a later
`setSamples(5)` does not restore a positive count. -/
theorem setSamples_zero_sticks (adc : Nat → Nat) :
    (MQ135Sensor.init : MQ135Sensor Int)._samples = 1 ∧
    ((MQ135Sensor.init : MQ135Sensor Int).setSamples 0)._samples = 0 ∧
    ((MQ135Sensor.init : MQ135Sensor Int).setSamples 0)._rawRead adc = none ∧
    (((MQ135Sensor.init : MQ135Sensor Int).setSamples 0).setSamples 5)._samples = 0 := by
  refine ⟨rfl, rfl, ?_, rfl⟩
  simp [MQ135Sensor._rawRead, MQ135Sensor.setSamples, MQ135Sensor.init]

end Espurna
